import Mathlib

/-!
Verification of the slack-edge event-dispatch core against its
natural-language specification.

The definitions below are a shallow embedding of the TypeScript sources:

* `isPostedMessageEvent` embeds `src/utility/message-events.ts`;
* the `Assistant` structure and its handler wrappers embed the
  `Assistant` class (constructor and the four registration methods);
* the `DefaultAssistantThreadContextStore` namespace embeds the default
  thread-context store, with the Slack Web API modelled as an explicit
  world state (threads of messages plus injectable I/O failures);
* `classify` and `dispatchAssistantMessage` model, from the
  specification, app-level wiring that is not among the provided
  source files.

TypeScript optional fields become `Option`; a thrown exception becomes
the error branch of `Except String`; `console.error` and `console.log`
output is collected in a `List String` of log lines; calls into the
Slack Web API client are recorded in a `List ApiCall` trace.
-/

/-- An inner event of an events-API envelope, as consumed by
`isPostedMessageEvent`: a `type` field and an optional `subtype`. -/
structure InnerEvent where
  type : String
  subtype : Option String
deriving DecidableEq, Repr

/-- Embeds `isPostedMessageEvent` from `src/utility/message-events.ts`:
true when the subtype is absent or one of `bot_message`, `file_share`,
`thread_broadcast`. -/
def isPostedMessageEvent (event : InnerEvent) : Bool :=
  event.subtype == none || event.subtype == some "bot_message" ||
    event.subtype == some "file_share" || event.subtype == some "thread_broadcast"

/-- Embeds `isFunctionExecutedEvent` from `src/utility/function-executed.ts`. -/
def isFunctionExecutedEvent (event : InnerEvent) : Bool :=
  event.type == "function_executed"

/-- Claim C2: `isPostedMessageEvent` returns true if and only if the
subtype is absent or equals `bot_message`, `file_share`, or
`thread_broadcast`; in particular it is true for a plain message, false
for `message_changed`, and true for `bot_message`. -/
theorem C2_isPostedMessageEvent_iff :
    (∀ event : InnerEvent,
      isPostedMessageEvent event = true ↔
        (event.subtype = none ∨ event.subtype = some "bot_message" ∨
          event.subtype = some "file_share" ∨ event.subtype = some "thread_broadcast"))
    ∧ isPostedMessageEvent ⟨"message", none⟩ = true
    ∧ isPostedMessageEvent ⟨"message", some "message_changed"⟩ = false
    ∧ isPostedMessageEvent ⟨"message", some "bot_message"⟩ = true := by
  refine ⟨fun event => ?_, by decide, by decide, by decide⟩
  simp [isPostedMessageEvent, or_assoc]

/-- The payload of a `message` event as inspected by the Assistant
message handlers: optional subtype, optional author user id, optional
text. -/
structure MessagePayload where
  subtype : Option String
  user : Option String
  text : Option String
deriving DecidableEq, Repr

/-- A `message` event request as seen by the Assistant handlers: the
payload plus `context.botUserId` (which may be undefined). -/
structure MessageEventRequest where
  payload : MessagePayload
  botUserId : Option String
deriving DecidableEq, Repr

/-- A thread-lifecycle event request as seen by the Assistant handlers.
`bodyIsAssistantThreadEvent` is modelled from the spec: it stands for
the outcome of `isAssitantThreadEvent(req.body)`, whose defining file
(`src/context/context.ts`) is not among the provided sources.  The
three `Except` fields are the outcomes of the request-context effects
(`say`, `setSuggestedPrompts`, `saveThreadContextStore`) used by the
default slot behaviors; an error value stands for a thrown exception. -/
structure ThreadEventRequest where
  bodyIsAssistantThreadEvent : Bool
  sayResult : Except String Unit
  setSuggestedPromptsResult : Except String Unit
  saveThreadContextStoreResult : Except String Unit
deriving Repr

/-- A handler body for a thread-lifecycle slot: an effect that may
throw, modelled by its outcome. -/
def ThreadSlotHandler : Type := ThreadEventRequest → Except String Unit

/-- A handler body for a message slot. -/
def MessageSlotHandler : Type := MessageEventRequest → Except String Unit

/-- The observable outcome of invoking one Assistant slot: the value
returned (or exception propagated) to the caller, whether the slot
fired (its guard matched so its concrete behavior ran), and the
`console.error` lines produced. -/
structure SlotRun where
  result : Except String Unit
  invoked : Bool
  logs : List String
deriving Repr

/-- Embeds the `try b catch (e) console.error(...)` wrapper that every
Assistant slot handler uses: the body outcome is caught and logged,
never rethrown. -/
def runCatching (label : String) (invoked : Bool) (body : Except String Unit) : SlotRun :=
  match body with
  | .ok () => ⟨.ok (), invoked, []⟩
  | .error e => ⟨.ok (), invoked, ["Failed to execute " ++ label ++ " listener: " ++ e]⟩

/-- The UserMessage guard from the source (`assistant.ts`): the subtype
is absent or `file_share`. -/
def userMessageGuard (req : MessageEventRequest) : Bool :=
  req.payload.subtype == none || req.payload.subtype == some "file_share"

/-- The BotMessage guard from the source (`assistant.ts`): the subtype
is absent and the author equals the app bot user id. -/
def botMessageGuard (req : MessageEventRequest) : Bool :=
  req.payload.subtype == none && req.payload.user == req.botUserId

/-- Constructor options of the Assistant class: an optional handler per
slot. -/
structure AssistantOptions where
  threadStarted : Option ThreadSlotHandler
  threadContextChanged : Option ThreadSlotHandler
  userMessage : Option MessageSlotHandler
  botMessage : Option MessageSlotHandler

/-- The default ThreadStarted behavior: send a greeting via `say`, then
set suggested prompts; each step may throw. -/
def defaultThreadStarted (req : ThreadEventRequest) : Except String Unit := do
  req.sayResult
  req.setSuggestedPromptsResult

/-- The default ThreadContextChanged behavior: persist the new context
via `context.saveThreadContextStore`. -/
def defaultThreadContextChanged (req : ThreadEventRequest) : Except String Unit :=
  req.saveThreadContextStoreResult

/-- The default UserMessage behavior: no-op, just ack. -/
def defaultUserMessage (_req : MessageEventRequest) : Except String Unit := .ok ()

/-- The default BotMessage behavior: no-op, just ack. -/
def defaultBotMessage (_req : MessageEventRequest) : Except String Unit := .ok ()

/-- The ThreadStarted slot handler installed by the constructor (and,
with `some handler`, by the `threadStarted` registration method): guard
on `isAssitantThreadEvent`, run the registered handler or the default,
catch and log any failure. -/
def threadStartedHandlerOf (h : Option ThreadSlotHandler) (req : ThreadEventRequest) : SlotRun :=
  if req.bodyIsAssistantThreadEvent then
    runCatching "threadStartedHandler" true ((h.getD defaultThreadStarted) req)
  else
    runCatching "threadStartedHandler" false (.ok ())

/-- The ThreadContextChanged slot handler installed by the constructor
(and, with `some handler`, by the registration method). -/
def threadContextChangedHandlerOf (h : Option ThreadSlotHandler) (req : ThreadEventRequest) : SlotRun :=
  if req.bodyIsAssistantThreadEvent then
    runCatching "threadContextChangedHandler" true ((h.getD defaultThreadContextChanged) req)
  else
    runCatching "threadContextChangedHandler" false (.ok ())

/-- The UserMessage slot handler installed by the constructor (and, with
`some handler`, by the registration method). -/
def userMessageHandlerOf (h : Option MessageSlotHandler) (req : MessageEventRequest) : SlotRun :=
  if userMessageGuard req then
    runCatching "userMessageHandler" true ((h.getD defaultUserMessage) req)
  else
    runCatching "userMessageHandler" false (.ok ())

/-- The BotMessage slot handler installed by the constructor (and, with
`some handler`, by the registration method). -/
def botMessageHandlerOf (h : Option MessageSlotHandler) (req : MessageEventRequest) : SlotRun :=
  if botMessageGuard req then
    runCatching "botMessageHandler" true ((h.getD defaultBotMessage) req)
  else
    runCatching "botMessageHandler" false (.ok ())

/-- The Assistant class state: one mutable handler field per slot. -/
structure Assistant where
  threadStartedHandler : ThreadEventRequest → SlotRun
  threadContextChangedHandler : ThreadEventRequest → SlotRun
  userMessageHandler : MessageEventRequest → SlotRun
  botMessageHandler : MessageEventRequest → SlotRun

/-- Embeds the Assistant constructor: installs the four slot handlers
built from the options. -/
def Assistant.new (options : AssistantOptions) : Assistant where
  threadStartedHandler := threadStartedHandlerOf options.threadStarted
  threadContextChangedHandler := threadContextChangedHandlerOf options.threadContextChanged
  userMessageHandler := userMessageHandlerOf options.userMessage
  botMessageHandler := botMessageHandlerOf options.botMessage

/-- Embeds the `threadStarted` registration method: reassigns the slot
field to a fresh wrapper around the given handler. -/
def Assistant.threadStarted (a : Assistant) (handler : ThreadSlotHandler) : Assistant :=
  { a with threadStartedHandler := threadStartedHandlerOf (some handler) }

/-- Embeds the `threadContextChanged` registration method. -/
def Assistant.threadContextChanged (a : Assistant) (handler : ThreadSlotHandler) : Assistant :=
  { a with threadContextChangedHandler := threadContextChangedHandlerOf (some handler) }

/-- Embeds the `userMessage` registration method. -/
def Assistant.userMessage (a : Assistant) (handler : MessageSlotHandler) : Assistant :=
  { a with userMessageHandler := userMessageHandlerOf (some handler) }

/-- Embeds the `botMessage` registration method. -/
def Assistant.botMessage (a : Assistant) (handler : MessageSlotHandler) : Assistant :=
  { a with botMessageHandler := botMessageHandlerOf (some handler) }

/-- Modelled from the spec: the app-level wiring that routes one
`message` event to the Assistant coordinator is not among the provided
source files.  Per the specification, the coordinator checks the
BotMessage author condition and the UserMessage general condition and
routes the event to the first slot that matches, never invoking both.
The first component is the BotMessage slot run, the second the
UserMessage slot run; a slot that is not routed to reports an
un-invoked no-op run. -/
def dispatchAssistantMessage (a : Assistant) (req : MessageEventRequest) : SlotRun × SlotRun :=
  if botMessageGuard req then
    (a.botMessageHandler req, ⟨.ok (), false, []⟩)
  else
    (⟨.ok (), false, []⟩, a.userMessageHandler req)

/-- The pair (BotMessage slot fired, UserMessage slot fired) observed
when one message event is dispatched through the coordinator. -/
def invokedPair (a : Assistant) (req : MessageEventRequest) : Bool × Bool :=
  ((dispatchAssistantMessage a req).1.invoked, (dispatchAssistantMessage a req).2.invoked)

theorem runCatching_result (label : String) (invoked : Bool) (body : Except String Unit) :
    (runCatching label invoked body).result = .ok () := by
  cases body with
  | ok u => cases u; rfl
  | error e => rfl

theorem runCatching_invoked (label : String) (invoked : Bool) (body : Except String Unit) :
    (runCatching label invoked body).invoked = invoked := by
  cases body with
  | ok u => cases u; rfl
  | error e => rfl

theorem runCatching_logs_of_error (label : String) (invoked : Bool)
    (body : Except String Unit) (e : String) (h : body = .error e) :
    (runCatching label invoked body).logs =
      ["Failed to execute " ++ label ++ " listener: " ++ e] := by
  subst h; rfl

/-- Claim C1: for a message event with no subtype, when the author
equals the bot user id the coordinator invokes the BotMessage slot and
not the UserMessage slot; when the author differs it invokes the
UserMessage slot and not the BotMessage slot; and the two slots are
never both invoked for one event. -/
theorem C1_assistant_message_routing (options : AssistantOptions)
    (req : MessageEventRequest) (hsub : req.payload.subtype = none) :
    (req.payload.user = req.botUserId →
      invokedPair (Assistant.new options) req = (true, false))
    ∧ (req.payload.user ≠ req.botUserId →
      invokedPair (Assistant.new options) req = (false, true))
    ∧ (∀ req' : MessageEventRequest,
        invokedPair (Assistant.new options) req' ≠ (true, true)) := by
  refine ⟨?_, ?_, ?_⟩
  · intro hu
    have hguard : botMessageGuard req = true := by
      simp [botMessageGuard, hsub, hu]
    simp [invokedPair, dispatchAssistantMessage, hguard, Assistant.new,
      botMessageHandlerOf, runCatching_invoked]
  · intro hu
    have hguard : botMessageGuard req = false := by
      simp [botMessageGuard, hsub]
      exact hu
    have huser : userMessageGuard req = true := by
      simp [userMessageGuard, hsub]
    simp [invokedPair, dispatchAssistantMessage, hguard, Assistant.new,
      userMessageHandlerOf, huser, runCatching_invoked]
  · intro req'
    by_cases hg : botMessageGuard req' = true
    · simp [invokedPair, dispatchAssistantMessage, hg]
    · simp [invokedPair, dispatchAssistantMessage, hg]

theorem C1_assistant_message_routing_witness :
    invokedPair (Assistant.new ⟨none, none, none, none⟩)
        ⟨⟨none, some "BOT1", none⟩, some "BOT1"⟩ = (true, false)
    ∧ invokedPair (Assistant.new ⟨none, none, none, none⟩)
        ⟨⟨none, some "U2", none⟩, some "BOT1"⟩ = (false, true) :=
  ⟨(C1_assistant_message_routing ⟨none, none, none, none⟩
      ⟨⟨none, some "BOT1", none⟩, some "BOT1"⟩ rfl).1 rfl,
   (C1_assistant_message_routing ⟨none, none, none, none⟩
      ⟨⟨none, some "U2", none⟩, some "BOT1"⟩ rfl).2.1 (by decide)⟩

/-- Claim C6: for each of the four coordinator slots, with the default
behavior or any registered handler, a failure of the handler body is
caught at the slot boundary and logged with the slot name and the
exception (standing for the stack), and the slot invocation always
returns normally to its caller. -/
theorem C6_slot_failure_isolation :
    (∀ (h : Option ThreadSlotHandler) (req : ThreadEventRequest),
      (threadStartedHandlerOf h req).result = .ok () ∧
        ∀ e : String, req.bodyIsAssistantThreadEvent = true →
          (h.getD defaultThreadStarted) req = .error e →
          (threadStartedHandlerOf h req).logs =
            ["Failed to execute threadStartedHandler listener: " ++ e])
    ∧ (∀ (h : Option ThreadSlotHandler) (req : ThreadEventRequest),
      (threadContextChangedHandlerOf h req).result = .ok () ∧
        ∀ e : String, req.bodyIsAssistantThreadEvent = true →
          (h.getD defaultThreadContextChanged) req = .error e →
          (threadContextChangedHandlerOf h req).logs =
            ["Failed to execute threadContextChangedHandler listener: " ++ e])
    ∧ (∀ (h : Option MessageSlotHandler) (req : MessageEventRequest),
      (userMessageHandlerOf h req).result = .ok () ∧
        ∀ e : String, userMessageGuard req = true →
          (h.getD defaultUserMessage) req = .error e →
          (userMessageHandlerOf h req).logs =
            ["Failed to execute userMessageHandler listener: " ++ e])
    ∧ (∀ (h : Option MessageSlotHandler) (req : MessageEventRequest),
      (botMessageHandlerOf h req).result = .ok () ∧
        ∀ e : String, botMessageGuard req = true →
          (h.getD defaultBotMessage) req = .error e →
          (botMessageHandlerOf h req).logs =
            ["Failed to execute botMessageHandler listener: " ++ e]) := by
  refine ⟨fun h req => ⟨?_, fun e hg herr => ?_⟩, fun h req => ⟨?_, fun e hg herr => ?_⟩,
    fun h req => ⟨?_, fun e hg herr => ?_⟩, fun h req => ⟨?_, fun e hg herr => ?_⟩⟩
  · unfold threadStartedHandlerOf
    split <;> exact runCatching_result _ _ _
  · simp only [threadStartedHandlerOf, hg, if_true]
    exact runCatching_logs_of_error _ _ _ _ herr
  · unfold threadContextChangedHandlerOf
    split <;> exact runCatching_result _ _ _
  · simp only [threadContextChangedHandlerOf, hg, if_true]
    exact runCatching_logs_of_error _ _ _ _ herr
  · unfold userMessageHandlerOf
    split <;> exact runCatching_result _ _ _
  · simp only [userMessageHandlerOf, hg, if_true]
    exact runCatching_logs_of_error _ _ _ _ herr
  · unfold botMessageHandlerOf
    split <;> exact runCatching_result _ _ _
  · simp only [botMessageHandlerOf, hg, if_true]
    exact runCatching_logs_of_error _ _ _ _ herr

theorem C6_slot_failure_isolation_witness :
    (threadStartedHandlerOf (some fun _ => .error "boom")
        ⟨true, .ok (), .ok (), .ok ()⟩).result = .ok ()
    ∧ (threadStartedHandlerOf (some fun _ => .error "boom")
        ⟨true, .ok (), .ok (), .ok ()⟩).logs =
      ["Failed to execute threadStartedHandler listener: " ++ "boom"] :=
  ⟨(C6_slot_failure_isolation.1 (some fun _ => .error "boom")
      ⟨true, .ok (), .ok (), .ok ()⟩).1,
   (C6_slot_failure_isolation.1 (some fun _ => .error "boom")
      ⟨true, .ok (), .ok (), .ok ()⟩).2 "boom" rfl rfl⟩

/-- Claim C7: each coordinator slot holds exactly one active handler (a
single function-valued field), and registering a handler replaces the
previous one entirely: after two registrations on a slot, invoking the
slot runs the wrapper of the second handler only, and on a matching
event exactly the most recently registered handler body runs. -/
theorem C7_last_registration_wins (a : Assistant)
    (t₁ t₂ : ThreadSlotHandler) (m₁ m₂ : MessageSlotHandler)
    (reqT : ThreadEventRequest) (reqM : MessageEventRequest) :
    ((a.threadStarted t₁).threadStarted t₂).threadStartedHandler reqT
        = threadStartedHandlerOf (some t₂) reqT
    ∧ ((a.threadContextChanged t₁).threadContextChanged t₂).threadContextChangedHandler reqT
        = threadContextChangedHandlerOf (some t₂) reqT
    ∧ ((a.userMessage m₁).userMessage m₂).userMessageHandler reqM
        = userMessageHandlerOf (some m₂) reqM
    ∧ ((a.botMessage m₁).botMessage m₂).botMessageHandler reqM
        = botMessageHandlerOf (some m₂) reqM
    ∧ (userMessageGuard reqM = true →
        ((a.userMessage m₁).userMessage m₂).userMessageHandler reqM
          = runCatching "userMessageHandler" true (m₂ reqM)) := by
  refine ⟨rfl, rfl, rfl, rfl, fun hg => ?_⟩
  simp [Assistant.userMessage, userMessageHandlerOf, hg]

theorem C7_last_registration_wins_witness :
    (((Assistant.new ⟨none, none, none, none⟩).userMessage (fun _ => .ok ())).userMessage
        (fun _ => .error "second")).userMessageHandler ⟨⟨none, some "U1", none⟩, some "B1"⟩
      = runCatching "userMessageHandler" true
          ((fun _ => .error "second" : MessageSlotHandler)
            ⟨⟨none, some "U1", none⟩, some "B1"⟩) :=
  (C7_last_registration_wins (Assistant.new ⟨none, none, none, none⟩)
    (fun _ => .ok ()) (fun _ => .ok ()) (fun _ => .ok ()) (fun _ => .error "second")
    ⟨true, .ok (), .ok (), .ok ()⟩ ⟨⟨none, some "U1", none⟩, some "B1"⟩).2.2.2.2 rfl

/-- A Block Kit block, opaque to the store (only passed through). -/
abbrev AnyMessageBlock := String

/-- The per-thread context record persisted by the store, stored and
returned verbatim. -/
structure AssistantThreadContext where
  enterprise_id : Option String
  team_id : String
  channel_id : String
deriving DecidableEq, Repr

/-- Message metadata as used by the store: an event-type tag and an
optional context payload. -/
structure MessageMetadata where
  event_type : String
  event_payload : Option AssistantThreadContext
deriving DecidableEq, Repr

/-- A message of a thread as returned by `conversations.replies`.
`subtype = none` models the absence of the `subtype` key; `user` is the
optional author id. -/
structure Message where
  ts : String
  user : Option String
  subtype : Option String
  text : String
  blocks : List AnyMessageBlock
  metadata : Option MessageMetadata
deriving DecidableEq, Repr

/-- The key identifying one assistant thread: channel id plus the
timestamp of the thread parent message. -/
structure AssistantThreadKey where
  channel_id : String
  thread_ts : String
deriving DecidableEq, Repr

/-- The external Slack state as seen through the API client: for each
(channel id, thread timestamp) pair the thread messages oldest-first,
plus injectable I/O failures for the two API methods the store uses (an
error value stands for a thrown client exception such as a network or
rate-limit failure). -/
structure SlackWorld where
  threads : List ((String × String) × List Message)
  repliesError : Option String
  updateError : Option String
deriving DecidableEq, Repr

/-- One call made to the Slack API client, recorded for tracing. -/
inductive ApiCall where
  | conversationsReplies (channel : String) (ts : String) (oldest : String)
      (include_all_metadata : Bool) (limit : Nat)
  | chatUpdate (channel : String) (ts : String) (text : String)
      (blocks : List AnyMessageBlock) (metadata : MessageMetadata)
deriving DecidableEq, Repr

/-- Looks up the message list of one thread in the world state. -/
def lookupThread (w : SlackWorld) (channel : String) (ts : String) : Option (List Message) :=
  (w.threads.find? (fun ent => ent.1.1 == channel && ent.1.2 == ts)).map (·.2)

/-- Models `client.conversations.replies`: fails when a failure is
injected, otherwise returns the first `limit` messages of the thread
(or no `messages` field when the thread is unknown).  The `oldest`
argument only delimits the window start and the thread lists are
already oldest-first, so it does not further filter here. -/
def conversationsReplies (w : SlackWorld) (channel : String) (ts : String)
    (_oldest : String) (_include_all_metadata : Bool) (limit : Nat) :
    Except String (Option (List Message)) :=
  match w.repliesError with
  | some e => .error e
  | none =>
    match lookupThread w channel ts with
    | some msgs => .ok (some (msgs.take limit))
    | none => .ok none

/-- The per-message effect of `chat.update`: the message whose
timestamp matches gets the given text, blocks and metadata; every other
message is untouched. -/
def updateMessage (ts : String) (text : String) (blocks : List AnyMessageBlock)
    (metadata : MessageMetadata) (m : Message) : Message :=
  if m.ts == ts then { m with text := text, blocks := blocks, metadata := some metadata }
  else m

/-- The per-thread-entry effect of `chat.update`: threads of the target
channel have their matching message rewritten; other channels are
untouched. -/
def updateEntry (channel : String) (ts : String) (text : String)
    (blocks : List AnyMessageBlock) (metadata : MessageMetadata)
    (ent : (String × String) × List Message) : (String × String) × List Message :=
  if ent.1.1 == channel then (ent.1, ent.2.map (updateMessage ts text blocks metadata))
  else ent

/-- Models `client.chat.update`: fails when a failure is injected,
otherwise rewrites the matching message in every thread of the target
channel. -/
def chatUpdate (w : SlackWorld) (channel : String) (ts : String) (text : String)
    (blocks : List AnyMessageBlock) (metadata : MessageMetadata) :
    Except String SlackWorld :=
  match w.updateError with
  | some e => .error e
  | none =>
    .ok { w with threads := w.threads.map (updateEntry channel ts text blocks metadata) }

/-- The first reply of the assistant bot in a thread, the storage
substrate for the context. -/
structure FirstReply where
  channel_id : String
  ts : String
  text : String
  blocks : List AnyMessageBlock
  metadata : Option MessageMetadata
deriving DecidableEq, Repr

namespace DefaultAssistantThreadContextStore

/-- The anchor condition from the source: the message carries no
`subtype` key and its author is the configured bot user. -/
def isAnchor (thisBotUserId : String) (m : Message) : Bool :=
  !m.subtype.isSome && m.user == some thisBotUserId

/-- Builds the `FirstReply` record the source extracts from a matching
message. -/
def toFirstReply (key : AssistantThreadKey) (m : Message) : FirstReply :=
  { channel_id := key.channel_id, ts := m.ts, text := m.text, blocks := m.blocks,
    metadata := m.metadata }

/-- Embeds `#findFirstAssistantReply`: fetch up to 4 replies of the
thread starting from the root timestamp with metadata included, return
the first message in that window authored by the bot with no subtype;
an API failure is caught and logged and yields no reply.  Returns the
found reply, the API calls made, and the log lines. -/
def findFirstAssistantReply (thisBotUserId : String) (w : SlackWorld)
    (key : AssistantThreadKey) :
    Option FirstReply × List ApiCall × List String :=
  let call := ApiCall.conversationsReplies key.channel_id key.thread_ts key.thread_ts true 4
  match conversationsReplies w key.channel_id key.thread_ts key.thread_ts true 4 with
  | .error e => (none, [call], ["Failed to fetch conversations.replies API result: " ++ e])
  | .ok none => (none, [call], [])
  | .ok (some msgs) =>
      ((msgs.find? (isAnchor thisBotUserId)).map (toFirstReply key), [call], [])

/-- Embeds `save`: look up the anchor reply; when present, call
`chat.update` on it with the same channel, timestamp, text and blocks
and the new context as metadata (the update failure, if any, is not
caught and propagates); when absent, do nothing.  Returns the new
world, the API calls made, and the log lines. -/
def save (thisBotUserId : String) (w : SlackWorld) (key : AssistantThreadKey)
    (newContext : AssistantThreadContext) :
    Except String (SlackWorld × List ApiCall × List String) :=
  match findFirstAssistantReply thisBotUserId w key with
  | (some reply, calls, logs) =>
    let metadata : MessageMetadata :=
      { event_type := "assistant_thread_context", event_payload := some newContext }
    match chatUpdate w reply.channel_id reply.ts reply.text reply.blocks metadata with
    | .ok w2 =>
        .ok (w2, calls ++ [ApiCall.chatUpdate reply.channel_id reply.ts reply.text
          reply.blocks metadata], logs)
    | .error e => .error e
  | (none, calls, logs) => .ok (w, calls, logs)

/-- Embeds `find`: look up the anchor reply and return the context
payload of its metadata, if any.  Returns the found context, the API
calls made, and the log lines; it never throws because the only API
call is inside the caught lookup. -/
def find (thisBotUserId : String) (w : SlackWorld) (key : AssistantThreadKey) :
    Option AssistantThreadContext × List ApiCall × List String :=
  match findFirstAssistantReply thisBotUserId w key with
  | (some reply, calls, logs) => (reply.metadata.bind (·.event_payload), calls, logs)
  | (none, calls, logs) => (none, calls, logs)

end DefaultAssistantThreadContextStore

/-- The single replies-API call the anchor lookup makes for a key. -/
def repliesCall (key : AssistantThreadKey) : ApiCall :=
  .conversationsReplies key.channel_id key.thread_ts key.thread_ts true 4

/-- Recognizes a `chat.update` call in an API trace. -/
def isChatUpdateCall : ApiCall → Bool
  | .chatUpdate _ _ _ _ _ => true
  | .conversationsReplies _ _ _ _ _ => false

theorem find?_map_of_pred_comm {α : Type} (f : α → α) (p : α → Bool)
    (hp : ∀ x, p (f x) = p x) (l : List α) :
    (l.map f).find? p = (l.find? p).map f := by
  induction l with
  | nil => rfl
  | cons a t ih =>
    by_cases h : p a = true
    · rw [List.map_cons, List.find?_cons_of_pos _ (by rw [hp]; exact h),
        List.find?_cons_of_pos _ h, Option.map_some']
    · have h' : ¬p (f a) = true := by rw [hp]; exact h
      rw [List.map_cons, List.find?_cons_of_neg _ (by simpa using h'),
        List.find?_cons_of_neg _ (by simpa using h), ih]

theorem isAnchor_updateMessage (thisBotUserId ts text : String)
    (blocks : List AnyMessageBlock) (metadata : MessageMetadata) (m : Message) :
    DefaultAssistantThreadContextStore.isAnchor thisBotUserId
        (updateMessage ts text blocks metadata m)
      = DefaultAssistantThreadContextStore.isAnchor thisBotUserId m := by
  unfold updateMessage DefaultAssistantThreadContextStore.isAnchor
  split <;> rfl

theorem updateEntry_fst (channel ts text : String) (blocks : List AnyMessageBlock)
    (metadata : MessageMetadata) (ent : (String × String) × List Message) :
    (updateEntry channel ts text blocks metadata ent).1 = ent.1 := by
  unfold updateEntry
  split <;> rfl

theorem lookupThread_after_update (w : SlackWorld) (c t ts text : String)
    (blocks : List AnyMessageBlock) (metadata : MessageMetadata) (msgs : List Message)
    (h : lookupThread w c t = some msgs) (hw : w.updateError = none) :
    ∃ w2 : SlackWorld,
      chatUpdate w c ts text blocks metadata = .ok w2
      ∧ lookupThread w2 c t = some (msgs.map (updateMessage ts text blocks metadata))
      ∧ w2.repliesError = w.repliesError ∧ w2.updateError = w.updateError
      ∧ w2.threads = w.threads.map (updateEntry c ts text blocks metadata) := by
  refine ⟨{ w with threads := w.threads.map (updateEntry c ts text blocks metadata) },
    ?_, ?_, rfl, rfl, rfl⟩
  · unfold chatUpdate
    rw [hw]
  · unfold lookupThread at h ⊢
    obtain ⟨ent0, hfind, hsnd⟩ := Option.map_eq_some'.mp h
    have hq := List.find?_some hfind
    have hkey : ∀ ent : (String × String) × List Message,
        ((updateEntry c ts text blocks metadata ent).1.1 == c
          && (updateEntry c ts text blocks metadata ent).1.2 == t)
          = (ent.1.1 == c && ent.1.2 == t) := by
      intro ent
      rw [updateEntry_fst]
    rw [show (fun ent : (String × String) × List Message => ent.1.1 == c && ent.1.2 == t)
        = fun ent => ent.1.1 == c && ent.1.2 == t from rfl,
      find?_map_of_pred_comm (updateEntry c ts text blocks metadata)
        (fun ent => ent.1.1 == c && ent.1.2 == t) hkey, hfind]
    have hc : (ent0.1.1 == c) = true := by
      have := hq
      simp only [Bool.and_eq_true] at this
      exact this.1
    simp only [Option.map_some']
    unfold updateEntry
    rw [hc]
    simp [hsnd]

/-- A thread root message authored by a human user. -/
def exRoot : Message := ⟨"100.1", some "U9", none, "root", [], none⟩

/-- The first bot reply of the example thread: the anchor. -/
def exAnchor : Message := ⟨"100.2", some "B1", none, "hi there", ["b1"], none⟩

/-- An example thread: the human root message, then the bot reply. -/
def exThread : List Message := [exRoot, exAnchor]

/-- The key of the example thread. -/
def exKey : AssistantThreadKey := ⟨"C1", "100.1"⟩

/-- A healthy world holding the example thread. -/
def exWorld : SlackWorld := ⟨[(("C1", "100.1"), exThread)], none, none⟩

/-- A world whose thread holds no bot reply. -/
def exWorldNoBot : SlackWorld := ⟨[(("C1", "100.1"), [exRoot])], none, none⟩

/-- The example world with a failure injected into `chat.update`. -/
def exWorldUpdateFail : SlackWorld := ⟨[(("C1", "100.1"), exThread)], none, some "rate_limited"⟩

/-- The example world with a failure injected into `conversations.replies`. -/
def exWorldRepliesFail : SlackWorld := ⟨[(("C1", "100.1"), exThread)], some "timeout", none⟩

/-- An example context record to persist. -/
def exContext : AssistantThreadContext := ⟨none, "T1", "C1"⟩

/-- Claim C10: the anchor lookup makes exactly one replies call, with
limit 4 and the thread root timestamp as both `ts` and `oldest`, and
selects the first message of that window carrying no subtype key and
authored by the bot; any message outside the 4-reply window or carrying
a subtype is never selected. -/
theorem C10_anchor_window (thisBotUserId : String) (w : SlackWorld)
    (key : AssistantThreadKey) (msgs : List Message)
    (hr : w.repliesError = none)
    (hl : lookupThread w key.channel_id key.thread_ts = some msgs) :
    DefaultAssistantThreadContextStore.findFirstAssistantReply thisBotUserId w key =
      (((msgs.take 4).find? (DefaultAssistantThreadContextStore.isAnchor thisBotUserId)).map
        (DefaultAssistantThreadContextStore.toFirstReply key), [repliesCall key], [])
    ∧ ∀ r : FirstReply,
        (DefaultAssistantThreadContextStore.findFirstAssistantReply thisBotUserId w key).1 =
            some r →
        ∃ m : Message, m ∈ msgs.take 4 ∧ m.subtype = none ∧ m.user = some thisBotUserId
          ∧ r = DefaultAssistantThreadContextStore.toFirstReply key m := by
  have hcr : conversationsReplies w key.channel_id key.thread_ts key.thread_ts true 4 =
      .ok (some (msgs.take 4)) := by
    unfold conversationsReplies
    rw [hr, hl]
  have h1 : DefaultAssistantThreadContextStore.findFirstAssistantReply thisBotUserId w key =
      (((msgs.take 4).find? (DefaultAssistantThreadContextStore.isAnchor thisBotUserId)).map
        (DefaultAssistantThreadContextStore.toFirstReply key), [repliesCall key], []) := by
    unfold DefaultAssistantThreadContextStore.findFirstAssistantReply
    rw [hcr]
    rfl
  refine ⟨h1, fun r hrr => ?_⟩
  rw [h1] at hrr
  simp only [] at hrr
  obtain ⟨m, hm, hrm⟩ := Option.map_eq_some'.mp hrr
  have hmem := List.mem_of_find?_eq_some hm
  have hp := List.find?_some hm
  unfold DefaultAssistantThreadContextStore.isAnchor at hp
  rw [Bool.and_eq_true] at hp
  obtain ⟨hps, hpu⟩ := hp
  have hsubnone : m.subtype = none := by
    cases hsub : m.subtype with
    | none => rfl
    | some v => rw [hsub] at hps; simp at hps
  have huser : m.user = some thisBotUserId := by
    simpa using hpu
  exact ⟨m, hmem, hsubnone, huser, hrm.symm⟩

theorem C10_anchor_window_witness :
    DefaultAssistantThreadContextStore.findFirstAssistantReply "B1" exWorld exKey =
      (((exThread.take 4).find? (DefaultAssistantThreadContextStore.isAnchor "B1")).map
        (DefaultAssistantThreadContextStore.toFirstReply exKey), [repliesCall exKey], []) :=
  (C10_anchor_window "B1" exWorld exKey exThread rfl rfl).1

/-- Claim C4: on a thread whose 4-reply window holds no bot-authored
anchor message, `find` returns absent with only the lookup call made,
and `save` returns normally, leaves the world unchanged, and makes no
update call. -/
theorem C4_no_anchor_noop (thisBotUserId : String) (w : SlackWorld)
    (key : AssistantThreadKey) (msgs : List Message) (newContext : AssistantThreadContext)
    (hr : w.repliesError = none)
    (hl : lookupThread w key.channel_id key.thread_ts = some msgs)
    (hnone : (msgs.take 4).find? (DefaultAssistantThreadContextStore.isAnchor thisBotUserId)
      = none) :
    DefaultAssistantThreadContextStore.find thisBotUserId w key = (none, [repliesCall key], [])
    ∧ DefaultAssistantThreadContextStore.save thisBotUserId w key newContext =
        .ok (w, [repliesCall key], [])
    ∧ ∀ out, DefaultAssistantThreadContextStore.save thisBotUserId w key newContext = .ok out →
        ∀ call ∈ out.2.1, isChatUpdateCall call = false := by
  have hcr : conversationsReplies w key.channel_id key.thread_ts key.thread_ts true 4 =
      .ok (some (msgs.take 4)) := by
    unfold conversationsReplies
    rw [hr, hl]
  have hff : DefaultAssistantThreadContextStore.findFirstAssistantReply thisBotUserId w key =
      (none, [repliesCall key], []) := by
    unfold DefaultAssistantThreadContextStore.findFirstAssistantReply
    rw [hcr]
    dsimp only
    rw [hnone]
    rfl
  have hsave : DefaultAssistantThreadContextStore.save thisBotUserId w key newContext =
      .ok (w, [repliesCall key], []) := by
    unfold DefaultAssistantThreadContextStore.save
    rw [hff]
  refine ⟨?_, hsave, ?_⟩
  · unfold DefaultAssistantThreadContextStore.find
    rw [hff]
  · intro out hout call hcall
    rw [hsave] at hout
    have hout' : (w, [repliesCall key], ([] : List String)) = out := by
      simpa using hout
    rw [← hout'] at hcall
    simp only [List.mem_singleton] at hcall
    rw [hcall]
    rfl

theorem C4_no_anchor_noop_witness :
    DefaultAssistantThreadContextStore.find "B1" exWorldNoBot exKey =
      (none, [repliesCall exKey], [])
    ∧ DefaultAssistantThreadContextStore.save "B1" exWorldNoBot exKey exContext =
      .ok (exWorldNoBot, [repliesCall exKey], []) :=
  ⟨(C4_no_anchor_noop "B1" exWorldNoBot exKey [exRoot] exContext rfl rfl (by decide)).1,
   (C4_no_anchor_noop "B1" exWorldNoBot exKey [exRoot] exContext rfl rfl (by decide)).2.1⟩

/-- The metadata record `save` writes: the fixed event-type tag with
the new context as payload. -/
def savedMetadata (newContext : AssistantThreadContext) : MessageMetadata :=
  ⟨"assistant_thread_context", some newContext⟩

/-- Claim C3: on a thread whose 4-reply lookup window holds a bot
reply with no subtype, `save` succeeds and a subsequent `find` on the
same key returns exactly the saved context. -/
theorem C3_save_then_find (thisBotUserId : String) (w : SlackWorld)
    (key : AssistantThreadKey) (msgs : List Message) (m : Message)
    (newContext : AssistantThreadContext)
    (hr : w.repliesError = none) (hu : w.updateError = none)
    (hl : lookupThread w key.channel_id key.thread_ts = some msgs)
    (hfind : (msgs.take 4).find? (DefaultAssistantThreadContextStore.isAnchor thisBotUserId)
      = some m) :
    ∃ (w2 : SlackWorld) (calls : List ApiCall) (logs : List String),
      DefaultAssistantThreadContextStore.save thisBotUserId w key newContext =
        .ok (w2, calls, logs)
      ∧ (DefaultAssistantThreadContextStore.find thisBotUserId w2 key).1 = some newContext := by
  have hcr : conversationsReplies w key.channel_id key.thread_ts key.thread_ts true 4 =
      .ok (some (msgs.take 4)) := by
    unfold conversationsReplies
    rw [hr, hl]
  have hff : DefaultAssistantThreadContextStore.findFirstAssistantReply thisBotUserId w key =
      (some (DefaultAssistantThreadContextStore.toFirstReply key m), [repliesCall key], []) := by
    unfold DefaultAssistantThreadContextStore.findFirstAssistantReply
    rw [hcr]
    dsimp only
    rw [hfind]
    rfl
  obtain ⟨w2, hupd, hlk2, hre2, hue2, hth2⟩ :=
    lookupThread_after_update w key.channel_id key.thread_ts m.ts m.text m.blocks
      (savedMetadata newContext) msgs hl hu
  have hsave : DefaultAssistantThreadContextStore.save thisBotUserId w key newContext =
      .ok (w2, [repliesCall key,
        ApiCall.chatUpdate key.channel_id m.ts m.text m.blocks (savedMetadata newContext)], []) := by
    unfold DefaultAssistantThreadContextStore.save
    rw [hff]
    dsimp only [DefaultAssistantThreadContextStore.toFirstReply]
    rw [show ({ event_type := "assistant_thread_context", event_payload := some newContext }
        : MessageMetadata) = savedMetadata newContext from rfl, hupd]
    rfl
  have hcr2 : conversationsReplies w2 key.channel_id key.thread_ts key.thread_ts true 4 =
      .ok (some ((msgs.map (updateMessage m.ts m.text m.blocks (savedMetadata newContext))).take 4)) := by
    unfold conversationsReplies
    rw [hre2.trans hr, hlk2]
  have hfind2 : ((msgs.map (updateMessage m.ts m.text m.blocks (savedMetadata newContext))).take 4).find?
      (DefaultAssistantThreadContextStore.isAnchor thisBotUserId)
      = some (updateMessage m.ts m.text m.blocks (savedMetadata newContext) m) := by
    rw [← List.map_take, find?_map_of_pred_comm _ _
      (fun x => isAnchor_updateMessage thisBotUserId m.ts m.text m.blocks
        (savedMetadata newContext) x), hfind]
    rfl
  have hff2 : DefaultAssistantThreadContextStore.findFirstAssistantReply thisBotUserId w2 key =
      (some (DefaultAssistantThreadContextStore.toFirstReply key
        (updateMessage m.ts m.text m.blocks (savedMetadata newContext) m)),
        [repliesCall key], []) := by
    unfold DefaultAssistantThreadContextStore.findFirstAssistantReply
    rw [hcr2]
    dsimp only
    rw [hfind2]
    rfl
  have hmd : (updateMessage m.ts m.text m.blocks (savedMetadata newContext) m).metadata =
      some (savedMetadata newContext) := by
    unfold updateMessage
    rw [if_pos (by simp)]
  refine ⟨w2, _, _, hsave, ?_⟩
  unfold DefaultAssistantThreadContextStore.find
  rw [hff2]
  dsimp only [DefaultAssistantThreadContextStore.toFirstReply]
  rw [hmd]
  rfl

theorem C3_save_then_find_witness :
    ∃ (w2 : SlackWorld) (calls : List ApiCall) (logs : List String),
      DefaultAssistantThreadContextStore.save "B1" exWorld exKey exContext =
        .ok (w2, calls, logs)
      ∧ (DefaultAssistantThreadContextStore.find "B1" w2 exKey).1 = some exContext :=
  C3_save_then_find "B1" exWorld exKey exThread exAnchor exContext rfl rfl rfl rfl

/-- Claim C9: with a reachable anchor, `save` calls `chat.update` with
exactly the anchor message channel, timestamp, text and blocks, and the
metadata tag `assistant_thread_context` carrying the new context; the
per-message updater leaves every message with a different timestamp (or
in a different channel) untouched, preserves the timestamp, author and
subtype of the matching message, and rewrites the anchor itself only in
its metadata. -/
theorem C9_save_updates_only_anchor_metadata (thisBotUserId : String) (w : SlackWorld)
    (key : AssistantThreadKey) (msgs : List Message) (m : Message)
    (newContext : AssistantThreadContext)
    (hr : w.repliesError = none) (hu : w.updateError = none)
    (hl : lookupThread w key.channel_id key.thread_ts = some msgs)
    (hfind : (msgs.take 4).find? (DefaultAssistantThreadContextStore.isAnchor thisBotUserId)
      = some m) :
    DefaultAssistantThreadContextStore.save thisBotUserId w key newContext =
      .ok ({ w with threads := w.threads.map (updateEntry key.channel_id m.ts m.text m.blocks
              (savedMetadata newContext)) },
        [repliesCall key,
          ApiCall.chatUpdate key.channel_id m.ts m.text m.blocks (savedMetadata newContext)], [])
    ∧ (∀ x : Message, x.ts ≠ m.ts →
        updateMessage m.ts m.text m.blocks (savedMetadata newContext) x = x)
    ∧ (∀ x : Message,
        ((updateMessage m.ts m.text m.blocks (savedMetadata newContext) x).ts,
          (updateMessage m.ts m.text m.blocks (savedMetadata newContext) x).user,
          (updateMessage m.ts m.text m.blocks (savedMetadata newContext) x).subtype)
          = (x.ts, x.user, x.subtype))
    ∧ updateMessage m.ts m.text m.blocks (savedMetadata newContext) m
        = { m with metadata := some (savedMetadata newContext) }
    ∧ (∀ ent : (String × String) × List Message, ent.1.1 ≠ key.channel_id →
        updateEntry key.channel_id m.ts m.text m.blocks (savedMetadata newContext) ent = ent) := by
  have hcr : conversationsReplies w key.channel_id key.thread_ts key.thread_ts true 4 =
      .ok (some (msgs.take 4)) := by
    unfold conversationsReplies
    rw [hr, hl]
  have hff : DefaultAssistantThreadContextStore.findFirstAssistantReply thisBotUserId w key =
      (some (DefaultAssistantThreadContextStore.toFirstReply key m), [repliesCall key], []) := by
    unfold DefaultAssistantThreadContextStore.findFirstAssistantReply
    rw [hcr]
    dsimp only
    rw [hfind]
    rfl
  refine ⟨?_, ?_, ?_, ?_, ?_⟩
  · unfold DefaultAssistantThreadContextStore.save
    rw [hff]
    dsimp only [DefaultAssistantThreadContextStore.toFirstReply]
    unfold chatUpdate
    rw [hu]
    rfl
  · intro x hx
    unfold updateMessage
    rw [if_neg (by simpa using hx)]
  · intro x
    unfold updateMessage
    split <;> rfl
  · unfold updateMessage
    rw [if_pos (by simp)]
  · intro ent hent
    unfold updateEntry
    rw [if_neg (by simpa using hent)]

theorem C9_save_updates_only_anchor_metadata_witness :
    updateMessage exAnchor.ts exAnchor.text exAnchor.blocks (savedMetadata exContext) exAnchor
      = { exAnchor with metadata := some (savedMetadata exContext) } :=
  (C9_save_updates_only_anchor_metadata "B1" exWorld exKey exThread exAnchor exContext
    rfl rfl rfl rfl).2.2.2.1

/-- Counterexample to claim C5 as stated: with a reachable anchor and a
failing `chat.update`, `save` propagates the update failure to its
caller (the update call sits outside the try/catch that guards only the
replies lookup). -/
theorem C5_propagation_counterexample :
    DefaultAssistantThreadContextStore.save "B1" exWorldUpdateFail exKey exContext =
      .error "rate_limited" := by
  rfl

/-- Claim C5 (amended): a failure of the replies lookup is caught
inside the store and logged, `find` then behaves as absent and `save`
as a no-op; but a failure of the `chat.update` call during `save` is
not caught and propagates to the caller. -/
theorem C5_store_error_isolation (thisBotUserId : String) (w : SlackWorld)
    (key : AssistantThreadKey) (newContext : AssistantThreadContext) (e : String) :
    (w.repliesError = some e →
      DefaultAssistantThreadContextStore.find thisBotUserId w key =
        (none, [repliesCall key], ["Failed to fetch conversations.replies API result: " ++ e])
      ∧ DefaultAssistantThreadContextStore.save thisBotUserId w key newContext =
        .ok (w, [repliesCall key], ["Failed to fetch conversations.replies API result: " ++ e]))
    ∧ (∀ r : FirstReply,
        (DefaultAssistantThreadContextStore.findFirstAssistantReply thisBotUserId w key).1 =
          some r →
        w.updateError = some e →
        DefaultAssistantThreadContextStore.save thisBotUserId w key newContext = .error e) := by
  constructor
  · intro hre
    have hff : DefaultAssistantThreadContextStore.findFirstAssistantReply thisBotUserId w key =
        (none, [repliesCall key],
          ["Failed to fetch conversations.replies API result: " ++ e]) := by
      unfold DefaultAssistantThreadContextStore.findFirstAssistantReply conversationsReplies
      rw [hre]
      rfl
    constructor
    · unfold DefaultAssistantThreadContextStore.find
      rw [hff]
    · unfold DefaultAssistantThreadContextStore.save
      rw [hff]
  · intro r hr1 hue
    rcases hfr : DefaultAssistantThreadContextStore.findFirstAssistantReply thisBotUserId w key
      with ⟨fst, calls, logs⟩
    rw [hfr] at hr1
    dsimp only at hr1
    subst hr1
    unfold DefaultAssistantThreadContextStore.save
    rw [hfr]
    dsimp only
    unfold chatUpdate
    rw [hue]

theorem C5_store_error_isolation_witness :
    DefaultAssistantThreadContextStore.find "B1" exWorldRepliesFail exKey =
      (none, [repliesCall exKey],
        ["Failed to fetch conversations.replies API result: " ++ "timeout"])
    ∧ DefaultAssistantThreadContextStore.save "B1" exWorldRepliesFail exKey exContext =
      .ok (exWorldRepliesFail, [repliesCall exKey],
        ["Failed to fetch conversations.replies API result: " ++ "timeout"]) :=
  ⟨((C5_store_error_isolation "B1" exWorldRepliesFail exKey exContext "timeout").1 rfl).1,
   ((C5_store_error_isolation "B1" exWorldRepliesFail exKey exContext "timeout").1 rfl).2⟩

/-- The closed vocabulary of typed payload tags, from
`src/request/payload-types.ts`. -/
inductive PayloadType where
  | BlockAction
  | BlockSuggestion
  | MessageShortcut
  | GlobalShortcut
  | EventsAPI
  | ViewSubmission
  | ViewClosed
  | AppRateLimited
deriving DecidableEq, Repr

/-- The wire value of each payload type tag, from the source enum. -/
def PayloadType.value : PayloadType → String
  | .BlockAction => "block_actions"
  | .BlockSuggestion => "block_suggestion"
  | .MessageShortcut => "message_action"
  | .GlobalShortcut => "shortcut"
  | .EventsAPI => "event_callback"
  | .ViewSubmission => "view_submission"
  | .ViewClosed => "view_closed"
  | .AppRateLimited => "app_rate_limited"

/-- All payload type tags. -/
def PayloadType.all : List PayloadType :=
  [.BlockAction, .BlockSuggestion, .MessageShortcut, .GlobalShortcut,
   .EventsAPI, .ViewSubmission, .ViewClosed, .AppRateLimited]

/-- The tag whose wire value is the given string, if any. -/
def payloadTypeOfString (s : String) : Option PayloadType :=
  PayloadType.all.find? (fun t => t.value == s)

/-- The decoded request body fields the classifier inspects: the
optional `type` tag and the optional `command` field. -/
structure RequestBody where
  type : Option String
  command : Option String
deriving DecidableEq, Repr

/-- The classification outcome: the slash-command variant or one of the
typed variants. -/
inductive Classified where
  | slashCommand
  | typed (t : PayloadType)
deriving DecidableEq, Repr

/-- A classification failure. -/
inductive ClassificationFailure where
  | UnknownPayloadType
deriving DecidableEq, Repr

/-- Modelled from the spec: the payload classifier itself is part of
the app wiring that is not among the provided source files.  Per the
specification, a body with a `command` field and no `type` field is the
slash-command variant; otherwise the `type` tag is mapped through the
closed vocabulary and an unrecognized tag fails classification.  The
structural validation of variant-specific required fields concerns the
field schemas the specification leaves out of scope, so it is not
modelled. -/
def classify (body : RequestBody) : Except ClassificationFailure Classified :=
  if body.command.isSome && body.type == none then .ok .slashCommand
  else
    match body.type with
    | some t =>
      match payloadTypeOfString t with
      | some pt => .ok (.typed pt)
      | none => .error .UnknownPayloadType
    | none => .error .UnknownPayloadType

/-- Claim C8: any body holding a `command` field and no `type` field
classifies as the slash-command variant; absence of the type tag, not
any particular value, is the discriminator. -/
theorem C8_slash_command_discriminator (body : RequestBody) (c : String)
    (hc : body.command = some c) (ht : body.type = none) :
    classify body = .ok .slashCommand := by
  simp [classify, hc, ht]

theorem C8_slash_command_discriminator_witness :
    classify ⟨none, some "/todo"⟩ = .ok .slashCommand :=
  C8_slash_command_discriminator ⟨none, some "/todo"⟩ "/todo" rfl rfl
